import Mathlib

/-!
Shallow embedding of src/src/ndiaudiosrc.rs (the NewTek NDI audio source
element NdiAudioSrc): the frame-polling, loss-classification and
timestamp-synchronization state machine, together with theorems settling the
frozen claims about it.

Machine integers (u64 counters, the i64 device timestamp viewed through the
code's `as u64` casts) are modelled as Nat; the one u64 addition that can wrap
(the running sample offset, `timestamp_data.offset += no_samples`) carries an
explicit % 2 ^ 64.  The blocking NDIlib_recv_capture_v2 calls are modelled by
consuming a finite list of poll results; exhausting the list while the source
loop would still be polling is reported as a distinguished `starved` outcome
(the real code would still be blocking there).
-/

namespace NdiAudio

/-- Negotiated audio format: the part of gst_audio::AudioInfo the element
keeps in `state.info`. -/
structure AudioInfo where
  rate : Nat
  channels : Nat
  deriving DecidableEq

/-- An NDI audio frame as the element reads it (the NDIlib_audio_frame_v2_t
fields it uses): device timestamp in 100 ns ticks (read `as u64` by the code),
sample count, channel count and sample rate. -/
structure AudioFrame where
  timestamp : Nat
  no_samples : Nat
  no_channels : Nat
  sample_rate : Nat
  deriving DecidableEq

/-- Result of one NDIlib_recv_capture_v2 call with the fixed 1000 ms timeout,
as the element distinguishes frame types: NDIlib_frame_type_none,
NDIlib_frame_type_error, or an audio frame.  The video and metadata frame
pointers passed by this element are null, so no other frame kind is
delivered to it. -/
inductive PollResult where
  | noFrame
  | error
  | audio (f : AudioFrame)
  deriving DecidableEq

/-- The element's mutable state, flattened from the source:
Settings (mutex `settings`: stream_name, ip, loss_threshold : u32,
id_receiver : i8, latency : Option ClockTime), State (mutex `state`:
info : Option AudioInfo), TimestampData (mutex `timestamp_data`:
offset : u64), the per-connection registry entry field
`receiver.initial_timestamp : u64` (0 means not yet established), and the
process-wide `ndi_struct.start_pts : ClockTime`.  `ndi_struct` lives in
lib.rs, outside src/; modelled from the spec: `stream_start_pts` starts at the
0 sentinel meaning unset, which is also what the code's
`== gst::ClockTime(Some(0))` check presumes. -/
structure Src where
  stream_name : String
  ip : String
  loss_threshold : Nat
  id_receiver : Int
  latency : Option Nat
  info : Option AudioInfo
  offset : Nat
  initial_timestamp : Nat
  start_pts : Nat
  deriving DecidableEq

/-- Settings::default() together with the initial State, TimestampData and
shared fields of a fresh element. -/
def defaultSrc : Src :=
  { stream_name := "Fixed ndi stream name"
    ip := ""
    loss_threshold := 5
    id_receiver := 0
    latency := none
    info := none
    offset := 0
    initial_timestamp := 0
    start_pts := 0 }

/-- Outcome of the `while skip_frame` polling loop inside create (source lines
394 to 421): the loop returns Err(CustomError) after the loss budget is
exhausted, returns an empty buffer for frame_type none with loss_threshold 0,
or terminates with an accepted audio frame; `starved` marks the modelling
artefact of running out of scripted poll results while still looping. -/
inductive LoopOutcome where
  | starved
  | streamClosed (rest : List PollResult)
  | emptyBuffer (rest : List PollResult)
  | gotFrame (f : AudioFrame) (rest : List PollResult)
  deriving DecidableEq

/-- The `while skip_frame` loop of create, one recursive step per
NDIlib_recv_capture_v2 result.  `loss` is the snapshot of
settings.loss_threshold (the settings lock is held across create), `time` the
snapshot of receiver.initial_timestamp taken before the loop, `count` the
loop-local count_frame_none (initialised to 0 by create).  Mirrors:
if (frame_type == none && loss != 0) || frame_type == error
  { if count < loss { count += 1; continue } return Err }
else { if frame_type == none && loss == 0 { return empty buffer } }
if time >= frame.timestamp { keep polling } else { accept the frame }. -/
def createLoop (loss time : Nat) : Nat → List PollResult → LoopOutcome
  | _, [] => LoopOutcome.starved
  | count, ft :: rest =>
    if (ft = PollResult.noFrame ∧ loss ≠ 0) ∨ ft = PollResult.error then
      if count < loss then createLoop loss time (count + 1) rest
      else LoopOutcome.streamClosed rest
    else if ft = PollResult.noFrame ∧ loss = 0 then
      LoopOutcome.emptyBuffer rest
    else
      match ft with
      | PollResult.audio f =>
        if time ≥ f.timestamp then createLoop loss time count rest
        else LoopOutcome.gotFrame f rest
      | _ => LoopOutcome.emptyBuffer rest

/-- A produced `gst::Buffer` with the metadata create stamps on it.  The
zero-length keepalive buffer of the loss_threshold = 0 path is represented
separately by `CreateResult.emptyBuffer`, since the code returns it without
stamping pts, duration or offsets. -/
structure Buffer where
  size : Nat
  pts : Nat
  duration : Nat
  offset : Nat
  offset_end : Nat
  deriving DecidableEq

/-- Result of one create call, in the host's fault vocabulary:
FlowReturn::NotNegotiated, FlowReturn::CustomError after the
ResourceError::Read "source closed the stream" message, the zero-length
keepalive buffer, or a filled buffer.  `starved` is the modelling artefact
for an exhausted poll script. -/
inductive CreateResult where
  | notNegotiated
  | streamClosed
  | emptyBuffer
  | starved
  | buffer (b : Buffer)
  deriving DecidableEq

/-- Buffer assembly for an accepted frame, source lines 425 to 457:
pts_raw = frame.timestamp as u64 - time (the loop guarantees
time < frame.timestamp, so the u64 subtraction equals the Nat one);
buff_size = no_samples * 2 * no_channels (2 = size in bytes of an i16);
latch ndi_struct.start_pts = clock.get_time() - base_time when it still
holds the 0 sentinel (`clock_minus_base` is that clock reading);
buffer pts = pts_raw * 100 + start_pts (NDI times are 100 ns ticks);
duration = (no_samples / sample_rate) * 1e9 (the source computes this in
f64 then truncates to u64; for the integral values involved this is the
floor division used here, and no claim depends on the rounding);
offset = timestamp_data.offset, then offset += no_samples (u64 wrap),
offset_end = the advanced offset. -/
def assembleBuffer (s : Src) (clock_minus_base : Nat) (f : AudioFrame) :
    Buffer × Src :=
  let pts_raw := f.timestamp - s.initial_timestamp
  let buff_size := f.no_samples * 2 * f.no_channels
  let start_pts := if s.start_pts = 0 then clock_minus_base else s.start_pts
  let pts := pts_raw * 100 + start_pts
  let duration := f.no_samples * 1000000000 / f.sample_rate
  let offset_end := (s.offset + f.no_samples) % 2 ^ 64
  (⟨buff_size, pts, duration, s.offset, offset_end⟩,
   { s with start_pts := start_pts, offset := offset_end })

/-- One create call (source lines 365 to 464).  If state.info is None it
fails with NotNegotiated before touching the receiver (the poll list is
returned unconsumed).  Otherwise it snapshots initial_timestamp, runs the
polling loop with count_frame_none = 0, and on an accepted frame assembles
the buffer.  create never writes receiver.initial_timestamp.  Returns the
result, the updated state, and the unconsumed poll results. -/
def create (s : Src) (clock_minus_base : Nat) (polls : List PollResult) :
    CreateResult × Src × List PollResult :=
  match s.info with
  | none => (CreateResult.notNegotiated, s, polls)
  | some _ =>
    match createLoop s.loss_threshold s.initial_timestamp 0 polls with
    | LoopOutcome.starved => (CreateResult.starved, s, [])
    | LoopOutcome.streamClosed r => (CreateResult.streamClosed, s, r)
    | LoopOutcome.emptyBuffer r => (CreateResult.emptyBuffer, s, r)
    | LoopOutcome.gotFrame f r =>
      (CreateResult.buffer (assembleBuffer s clock_minus_base f).fst,
       (assembleBuffer s clock_minus_base f).snd, r)

/-- A sequence of create calls: one call per entry of `clocks` (each entry is
that call's pipeline clock reading minus base time), threading the element
state and the unconsumed poll results through. -/
def createSeq : Src → List Nat → List PollResult →
    List CreateResult × Src
  | s, [], _ => ([], s)
  | s, c :: cs, polls =>
    let step := create s c polls
    let next := createSeq step.snd.fst cs step.snd.snd
    (step.fst :: next.fst, next.snd)

/-- The warm-up polling loop shared by change_state (PausedToPlaying) and
fixate: `while frame_type != audio { capture }` — consume results until the
first audio frame; none means the loop is still blocking. -/
def warmupLoop : List PollResult → Option AudioFrame
  | [] => none
  | PollResult.audio f :: _ => some f
  | _ :: rest => warmupLoop rest

/-- change_state on the PausedToPlaying transition (source lines 225 to 262):
block for one audio frame, then
if receiver.initial_timestamp <= frame.timestamp || initial_timestamp == 0
  { receiver.initial_timestamp = frame.timestamp }. -/
def changeStatePausedToPlaying (s : Src) (polls : List PollResult) : Src :=
  match warmupLoop polls with
  | none => s
  | some f =>
    if s.initial_timestamp ≤ f.timestamp ∨ s.initial_timestamp = 0 then
      { s with initial_timestamp := f.timestamp }
    else s

/-- start (source lines 280 to 292): reset State to default (info := none),
then settings.id_receiver = connect_ndi(..); returns id_receiver != 0.
connect_ndi lives in lib.rs outside src/, so the id it yields is taken as the
parameter `connect_result` (0 is the failure sentinel); no claim depends on
the registry bookkeeping it performs, and start touches neither
timestamp_data.offset nor ndi_struct.start_pts. -/
def start (s : Src) (connect_result : Int) : Src × Bool :=
  ({ s with info := none, id_receiver := connect_result },
   decide (connect_result ≠ 0))

/-- stop (source lines 294 to 302): reset State to default (info := none) and
release the receiver via stop_ndi (external, lib.rs); always returns true.
stop touches neither timestamp_data.offset nor ndi_struct.start_pts. -/
def stop (s : Src) : Src × Bool :=
  ({ s with info := none }, true)

/-- set_caps (source lines 266 to 278): AudioInfo::from_caps, whose outcome is
the `caps_info` parameter; None makes set_caps return false without touching
state, Some stores the info and returns true.  settings.latency is not
touched. -/
def set_caps (s : Src) (caps_info : Option AudioInfo) : Src × Bool :=
  match caps_info with
  | none => (s, false)
  | some i => ({ s with info := some i }, true)

/-- Outcome of the latency branch of query (source lines 311 to 323).
`panicked` models the `settings.latency.unwrap()` panic when latency is None;
`answered live min maxUnbounded` models q.set(true, latency, CLOCK_TIME_NONE);
`notAnswered` is the `return false` of the unnegotiated case. -/
inductive LatencyQueryResult where
  | panicked
  | answered (live : Bool) (min : Nat) (maxUnbounded : Bool)
  | notAnswered
  deriving DecidableEq

/-- The latency branch of query: if state.info is Some, read
settings.latency.unwrap() (a panic when latency is None) and answer
(true, latency, CLOCK_TIME_NONE); else answer false. -/
def queryLatency (s : Src) : LatencyQueryResult :=
  match s.info with
  | some _ =>
    match s.latency with
    | none => LatencyQueryResult.panicked
    | some l => LatencyQueryResult.answered true l true
  | none => LatencyQueryResult.notAnswered

/-- fixate (source lines 327 to 363), restricted to the state it mutates:
block for one audio frame, then
settings.latency = gst::SECOND.mul_div_floor(no_samples, sample_rate)
(mul_div_floor yields None when the divisor is 0).  The caps fixation itself
manipulates host caps structures and is not modelled; fixate does not write
receiver.initial_timestamp. -/
def fixate (s : Src) (polls : List PollResult) : Src :=
  match warmupLoop polls with
  | none => s
  | some f =>
    { s with latency :=
        if f.sample_rate = 0 then none
        else some (1000000000 * f.no_samples / f.sample_rate) }

/-- The buffer carried by a create result, if any. -/
def bufferOf : CreateResult → Option Buffer
  | CreateResult.buffer b => some b
  | _ => none

/-- The filled buffers produced by a run of create calls, in order. -/
def buffersOf (rs : List CreateResult) : List Buffer :=
  rs.filterMap bufferOf

/-- The presentation timestamp of a create result's buffer, if any. -/
def resultPts (r : CreateResult) : Option Nat :=
  (bufferOf r).map Buffer.pts

/-- The offset of a create result's buffer, if any. -/
def resultOffset (r : CreateResult) : Option Nat :=
  (bufferOf r).map Buffer.offset

/-- Concrete S16 interleaved format, 48 kHz stereo, used by witnesses. -/
def infoS16 : AudioInfo := { rate := 48000, channels := 2 }

/-- Concrete audio frame used by witnesses: device timestamp 10, 480 samples,
2 channels, 48 kHz. -/
def frameA : AudioFrame :=
  { timestamp := 10, no_samples := 480, no_channels := 2, sample_rate := 48000 }

/-- Concrete audio frame used by witnesses: device timestamp 20, 480 samples,
2 channels, 48 kHz. -/
def frameB : AudioFrame :=
  { timestamp := 20, no_samples := 480, no_channels := 2, sample_rate := 48000 }

/-- An element state after a successful start and caps negotiation, with the
connection's initial_timestamp established at 5. -/
def negotiatedSrc : Src :=
  { defaultSrc with
    info := some infoS16
    id_receiver := 1
    initial_timestamp := 5 }

/-- The element state used by the loss-threshold witnesses: negotiated caps
and loss_threshold = 2. -/
def lossTwoSrc : Src := { negotiatedSrc with loss_threshold := 2 }

lemma createLoop_noFrame (loss time count : Nat) (rest : List PollResult) :
    createLoop loss time count (PollResult.noFrame :: rest) =
      if loss ≠ 0 then
        if count < loss then createLoop loss time (count + 1) rest
        else LoopOutcome.streamClosed rest
      else LoopOutcome.emptyBuffer rest := by
  by_cases h : loss = 0 <;> simp [createLoop, h]

lemma createLoop_error (loss time count : Nat) (rest : List PollResult) :
    createLoop loss time count (PollResult.error :: rest) =
      if count < loss then createLoop loss time (count + 1) rest
      else LoopOutcome.streamClosed rest := by
  simp [createLoop]

lemma createLoop_audio (loss time count : Nat) (f : AudioFrame)
    (rest : List PollResult) :
    createLoop loss time count (PollResult.audio f :: rest) =
      if time ≥ f.timestamp then createLoop loss time count rest
      else LoopOutcome.gotFrame f rest := by
  simp [createLoop]

lemma create_none (s : Src) (c : Nat) (polls : List PollResult)
    (h : s.info = none) :
    create s c polls = (CreateResult.notNegotiated, s, polls) := by
  unfold create; rw [h]

lemma create_some (s : Src) (c : Nat) (polls : List PollResult) (i : AudioInfo)
    (h : s.info = some i) :
    create s c polls =
      match createLoop s.loss_threshold s.initial_timestamp 0 polls with
      | LoopOutcome.starved => (CreateResult.starved, s, [])
      | LoopOutcome.streamClosed r => (CreateResult.streamClosed, s, r)
      | LoopOutcome.emptyBuffer r => (CreateResult.emptyBuffer, s, r)
      | LoopOutcome.gotFrame f r =>
        (CreateResult.buffer (assembleBuffer s c f).fst,
         (assembleBuffer s c f).snd, r) := by
  unfold create; rw [h]

lemma create_gotFrame (s : Src) (c : Nat) (polls rest : List PollResult)
    (i : AudioInfo) (f : AudioFrame) (hinfo : s.info = some i)
    (hloop : createLoop s.loss_threshold s.initial_timestamp 0 polls
      = LoopOutcome.gotFrame f rest) :
    create s c polls =
      (CreateResult.buffer (assembleBuffer s c f).fst,
       (assembleBuffer s c f).snd, rest) := by
  rw [create_some s c polls i hinfo, hloop]

lemma create_preserves (s : Src) (c : Nat) (polls : List PollResult) :
    (create s c polls).snd.fst.initial_timestamp = s.initial_timestamp ∧
    (create s c polls).snd.fst.info = s.info ∧
    (create s c polls).snd.fst.loss_threshold = s.loss_threshold := by
  unfold create
  split
  · exact ⟨rfl, rfl, rfl⟩
  · split <;> exact ⟨rfl, rfl, rfl⟩

lemma loop_skip_fails (loss time : Nat) :
    ∀ (fails : List PollResult) (count : Nat) (rest : List PollResult),
      (∀ p ∈ fails, p = PollResult.noFrame ∨ p = PollResult.error) →
      count + fails.length ≤ loss →
      createLoop loss time count (fails ++ rest)
        = createLoop loss time (count + fails.length) rest := by
  intro fails
  induction fails with
  | nil => intro count rest _ _; simp
  | cons p fs ih =>
    intro count rest hall hle
    simp only [List.length_cons] at hle
    have hloss : loss ≠ 0 := by omega
    have hcount : count < loss := by omega
    have harith : count + 1 + fs.length = count + (fs.length + 1) := by omega
    have htail : ∀ q ∈ fs, q = PollResult.noFrame ∨ q = PollResult.error :=
      fun q hq => hall q (List.mem_cons_of_mem _ hq)
    rcases hall p (List.mem_cons_self p fs) with hp | hp <;> subst hp
    · rw [List.cons_append, createLoop_noFrame, if_pos hloss, if_pos hcount,
        ih (count + 1) rest htail (by omega), List.length_cons, harith]
    · rw [List.cons_append, createLoop_error, if_pos hcount,
        ih (count + 1) rest htail (by omega), List.length_cons, harith]

lemma loop_fails_closed (loss time : Nat) (hloss : loss ≠ 0) :
    ∀ (fails : List PollResult) (count : Nat) (rest : List PollResult),
      (∀ p ∈ fails, p = PollResult.noFrame ∨ p = PollResult.error) →
      count ≤ loss → count + fails.length = loss + 1 →
      createLoop loss time count (fails ++ rest)
        = LoopOutcome.streamClosed rest := by
  intro fails
  induction fails with
  | nil =>
    intro count rest _ hc hlen
    simp only [List.length_nil, Nat.add_zero] at hlen
    omega
  | cons p fs ih =>
    intro count rest hall hc hlen
    simp only [List.length_cons] at hlen
    have htail : ∀ q ∈ fs, q = PollResult.noFrame ∨ q = PollResult.error :=
      fun q hq => hall q (List.mem_cons_of_mem _ hq)
    rcases hall p (List.mem_cons_self p fs) with hp | hp <;> subst hp
    · rw [List.cons_append, createLoop_noFrame, if_pos hloss]
      by_cases hcl : count < loss
      · rw [if_pos hcl]
        exact ih (count + 1) rest htail (by omega) (by omega)
      · rw [if_neg hcl]
        have hfs : fs = [] := List.length_eq_zero.mp (by omega)
        subst hfs; rfl
    · rw [List.cons_append, createLoop_error]
      by_cases hcl : count < loss
      · rw [if_pos hcl]
        exact ih (count + 1) rest htail (by omega) (by omega)
      · rw [if_neg hcl]
        have hfs : fs = [] := List.length_eq_zero.mp (by omega)
        subst hfs; rfl

/-- C1 counterexample: with a connection whose initial_timestamp is already
the non-zero value 5, the PausedToPlaying warm-up in change_state that
observes an audio frame with device timestamp 10 RAISES initial_timestamp to
10, refuting the claim that once non-zero it is never increased and only ever
lowered (the code's update guard is
initial_timestamp <= frame.timestamp || initial_timestamp == 0). -/
theorem C1_counterexample :
    negotiatedSrc.initial_timestamp = 5 ∧
    (changeStatePausedToPlaying negotiatedSrc
        [PollResult.audio frameA]).initial_timestamp = 10 ∧
    (5 : Nat) < 10 := by decide

/-- C1 amended: once set, initial_timestamp never DECREASES; the
PausedToPlaying warm-up overwrites it with the observed frame's timestamp
exactly when that timestamp is greater than or equal to the stored value (so
it can only stay or grow), and create never modifies initial_timestamp at
all. -/
theorem C1_amended_initial_timestamp_monotone (s : Src)
    (polls polls2 : List PollResult) (c : Nat) :
    s.initial_timestamp
        ≤ (changeStatePausedToPlaying s polls).initial_timestamp ∧
    (create s c polls2).snd.fst.initial_timestamp = s.initial_timestamp := by
  refine ⟨?_, (create_preserves s c polls2).1⟩
  unfold changeStatePausedToPlaying
  split
  · exact Nat.le_refl _
  · split
    next f _ h =>
      rcases h with h | h
      · exact h
      · omega
    next => exact Nat.le_refl _

/-- C2: the claim (and the loss-threshold property's own documentation, "If 0
the stream is never closed by the element") says that with loss_threshold = 0
every NoFrame or Error poll yields a zero-length buffer and never a fault; the
code honours that for frame_type none, but for frame_type error the guard
`count_frame_none < loss_threshold` is 0 < 0 = false, so create immediately
fails with the ResourceError::Read StreamClosed fault (FlowReturn::CustomError)
even though loss_threshold is 0. -/
theorem C2_loss_zero_error_still_closes :
    (create { negotiatedSrc with loss_threshold := 0 } 0
        [PollResult.error]).fst = CreateResult.streamClosed ∧
    (create { negotiatedSrc with loss_threshold := 0 } 0
        [PollResult.noFrame]).fst = CreateResult.emptyBuffer := by decide

/-- C5: after set_caps succeeds (state.info is Some) but before fixate has
ever run, Settings.latency still holds its default None, and the latency query
executes settings.latency.unwrap() — a panic — instead of answering; the
un-negotiated case does answer false as claimed. -/
theorem C5_latency_query_panics_without_fixate :
    queryLatency (set_caps defaultSrc (some infoS16)).fst
        = LatencyQueryResult.panicked ∧
    queryLatency defaultSrc = LatencyQueryResult.notAnswered :=
  ⟨rfl, rfl⟩

/-- C6 counterexample: a session produces one 480-sample buffer (the sample
cursor advances to 480), then stop and a fresh start are called; start resets
state.info but never touches timestamp_data.offset, so after renegotiating
caps the FIRST buffer of the new session carries offset 480, not 0. -/
theorem C6_counterexample :
    resultOffset
        (create
          (set_caps
            (start
              (stop (create negotiatedSrc 3 [PollResult.audio frameA]).snd.fst).fst
              1).fst
            (some infoS16)).fst
          3 [PollResult.audio frameB]).fst
      = some 480 ∧ (480 : Nat) ≠ 0 := by decide

/-- C6 amended: every call to start resets CaptureState to empty
(state.info := none) but does NOT reset TimestampCursor's sample offset, and
stop does not either: timestamp_data.offset persists across start/stop
sessions, so only the first buffer of the element's whole lifetime is
guaranteed to begin at offset 0. -/
theorem C6_amended_start_resets_info_not_offset (s : Src) (idr : Int) :
    (start s idr).fst.info = none ∧ (start s idr).fst.offset = s.offset ∧
    (stop s).fst.offset = s.offset :=
  ⟨rfl, rfl, rfl⟩

/-- C7: a create call made while state.info is None fails with NotNegotiated
and performs no capture call: the poll stream is returned unconsumed and the
element state is returned unchanged. -/
theorem C7_create_before_caps_not_negotiated (s : Src) (c : Nat)
    (polls : List PollResult) (h : s.info = none) :
    create s c polls = (CreateResult.notNegotiated, s, polls) :=
  create_none s c polls h

/-- C7 witness: a fresh element (state.info = none) with a pending audio frame
in the poll stream fails with NotNegotiated, consumes nothing and changes
nothing. -/
theorem C7_create_before_caps_witness :
    create defaultSrc 0 [PollResult.audio frameA]
      = (CreateResult.notNegotiated, defaultSrc, [PollResult.audio frameA]) :=
  C7_create_before_caps_not_negotiated defaultSrc 0 [PollResult.audio frameA] rfl

/-- C3: with loss_threshold = N > 0, exactly N + 1 consecutive NoFrame/Error
poll results make create fail with the StreamClosed read fault
(FlowReturn::CustomError), regardless of what follows; while k ≤ N
consecutive failures followed by a fresh audio frame are all tolerated and
yield a normal buffer, the audio frame ending the cycle.  The
consecutive-failure counter is the loop-local count_frame_none, which create
re-initialises to 0 on entry, so after the recovering buffer the next create
call again starts with counter 0 (create also leaves loss_threshold, caps and
initial_timestamp untouched, as create_preserves shows). -/
theorem C3_loss_threshold_exact_boundary
    (N k : Nat) (s : Src) (i : AudioInfo) (c c2 : Nat)
    (fails fails2 : List PollResult) (f : AudioFrame)
    (rest rest2 : List PollResult)
    (hN : 0 < N)
    (hinfo : s.info = some i)
    (hloss : s.loss_threshold = N)
    (hfails : ∀ p ∈ fails, p = PollResult.noFrame ∨ p = PollResult.error)
    (hlen : fails.length = N + 1)
    (hfails2 : ∀ p ∈ fails2, p = PollResult.noFrame ∨ p = PollResult.error)
    (hlen2 : fails2.length = k) (hk : k ≤ N)
    (hts : s.initial_timestamp < f.timestamp) :
    (create s c (fails ++ rest)).fst = CreateResult.streamClosed ∧
    create s c2 (fails2 ++ PollResult.audio f :: rest2)
      = (CreateResult.buffer (assembleBuffer s c2 f).fst,
         (assembleBuffer s c2 f).snd, rest2) := by
  constructor
  · have hclosed : createLoop s.loss_threshold s.initial_timestamp 0
        (fails ++ rest) = LoopOutcome.streamClosed rest := by
      rw [hloss]
      exact loop_fails_closed N s.initial_timestamp (by omega) fails 0 rest
        hfails (by omega) (by omega)
    rw [create_some s c _ i hinfo, hclosed]
  · have hloop : createLoop s.loss_threshold s.initial_timestamp 0
        (fails2 ++ PollResult.audio f :: rest2)
          = LoopOutcome.gotFrame f rest2 := by
      rw [hloss,
        loop_skip_fails N s.initial_timestamp fails2 0 _ hfails2 (by omega),
        createLoop_audio, if_neg (by omega)]
    exact create_gotFrame s c2 _ rest2 i f hinfo hloop

/-- C3 witness: loss_threshold 2; three consecutive failures close the
stream, two failures followed by a fresh audio frame recover with a normal
buffer. -/
theorem C3_loss_threshold_witness :
    (create lossTwoSrc 0
        ([PollResult.error, PollResult.noFrame, PollResult.error] ++ [])).fst
      = CreateResult.streamClosed ∧
    create lossTwoSrc 7
        ([PollResult.noFrame, PollResult.error] ++ PollResult.audio frameA :: [])
      = (CreateResult.buffer (assembleBuffer lossTwoSrc 7 frameA).fst,
         (assembleBuffer lossTwoSrc 7 frameA).snd, []) :=
  C3_loss_threshold_exact_boundary 2 2 lossTwoSrc infoS16 0 7
    [PollResult.error, PollResult.noFrame, PollResult.error]
    [PollResult.noFrame, PollResult.error] frameA [] []
    (by decide) rfl rfl (by decide) rfl (by decide) rfl (by decide) (by decide)

/-- C9: the filled buffer returned by a create call is assembled from the
frame accepted by the polling loop, and its byte length is
no_samples * no_channels * 2 (the source computes
no_samples * 2 * no_channels, 2 being the size in bytes of an i16). -/
theorem C9_buffer_size (s : Src) (c : Nat) (polls : List PollResult)
    (b : Buffer) (s' : Src) (rest : List PollResult)
    (h : create s c polls = (CreateResult.buffer b, s', rest)) :
    ∃ f rest2,
      createLoop s.loss_threshold s.initial_timestamp 0 polls
          = LoopOutcome.gotFrame f rest2 ∧
      b.size = f.no_samples * f.no_channels * 2 := by
  unfold create at h
  split at h
  · simp at h
  · split at h
    · simp at h
    · simp at h
    · simp at h
    · next f r heq =>
      refine ⟨f, r, heq, ?_⟩
      have hb : (assembleBuffer s c f).fst = b := by
        have hfst := congrArg Prod.fst h
        simpa using hfst
      rw [← hb]
      show f.no_samples * 2 * f.no_channels = f.no_samples * f.no_channels * 2
      ring

/-- C9 witness: a 480-sample stereo frame yields a buffer of
480 * 2 * 2 = 1920 bytes. -/
theorem C9_buffer_size_witness :
    ∃ f rest2,
      createLoop negotiatedSrc.loss_threshold negotiatedSrc.initial_timestamp 0
          [PollResult.audio frameA] = LoopOutcome.gotFrame f rest2 ∧
      (1920 : Nat) = f.no_samples * f.no_channels * 2 :=
  C9_buffer_size negotiatedSrc 7 [PollResult.audio frameA]
    ⟨1920, 507, 10000000, 0, 480⟩
    { negotiatedSrc with start_pts := 7, offset := 480 } [] (by decide)

/-- C10: whenever the create polling loop terminates by accepting a frame,
that frame's device timestamp is strictly greater than the initial_timestamp
snapshot taken before the loop (the loop keeps polling on
time >= frame.timestamp), so the u64 subtraction frame.timestamp - time in
the pts computation cannot underflow — the Nat subtraction round-trips — and
the raw presentation-timestamp delta is strictly positive. -/
theorem C10_accepted_frame_fresh (loss time : Nat) :
    ∀ (polls : List PollResult) (count : Nat) (f : AudioFrame)
      (rest : List PollResult),
      createLoop loss time count polls = LoopOutcome.gotFrame f rest →
      time < f.timestamp ∧ 0 < f.timestamp - time ∧
        (f.timestamp - time) + time = f.timestamp := by
  intro polls
  induction polls with
  | nil => intro count f rest h; simp [createLoop] at h
  | cons p ps ih =>
    intro count f rest h
    cases p with
    | noFrame =>
      rw [createLoop_noFrame] at h
      by_cases hl : loss ≠ 0
      · rw [if_pos hl] at h
        by_cases hc : count < loss
        · rw [if_pos hc] at h; exact ih _ _ _ h
        · rw [if_neg hc] at h; simp at h
      · rw [if_neg hl] at h; simp at h
    | error =>
      rw [createLoop_error] at h
      by_cases hc : count < loss
      · rw [if_pos hc] at h; exact ih _ _ _ h
      · rw [if_neg hc] at h; simp at h
    | audio g =>
      rw [createLoop_audio] at h
      by_cases hts : time ≥ g.timestamp
      · rw [if_pos hts] at h; exact ih _ _ _ h
      · rw [if_neg hts] at h
        injection h with h1 h2
        subst h1
        exact ⟨by omega, by omega, by omega⟩

/-- C10 witness: after one tolerated NoFrame, the loop accepts the frame with
device timestamp 10 against the snapshot 5; the delta 5 is positive and the
subtraction round-trips. -/
theorem C10_accepted_frame_fresh_witness :
    (5 : Nat) < frameA.timestamp ∧ 0 < frameA.timestamp - 5 ∧
      (frameA.timestamp - 5) + 5 = frameA.timestamp :=
  C10_accepted_frame_fresh 5 5 [PollResult.noFrame, PollResult.audio frameA] 0
    frameA [] (by decide)

lemma chain_pts (t c : Nat) :
    ∀ (l : List AudioFrame),
      (∀ f ∈ l, t < f.timestamp) →
      List.Chain' (fun a b => a.timestamp < b.timestamp) l →
      List.Chain' (fun a b : Nat => a < b)
        (l.map (fun f => (f.timestamp - t) * 100 + c)) := by
  intro l
  induction l with
  | nil => intro _ _; simp
  | cons a l ih =>
    intro hmem hch
    cases l with
    | nil => simp
    | cons b l2 =>
      rw [List.map_cons, List.map_cons, List.chain'_cons]
      rw [List.chain'_cons] at hch
      constructor
      · have h1 : t < a.timestamp := hmem a (List.mem_cons_self a _)
        have h2 : a.timestamp < b.timestamp := hch.1
        omega
      · have htail := ih (fun f hf => hmem f (List.mem_cons_of_mem _ hf)) hch.2
        rw [List.map_cons] at htail
        exact htail

lemma seq_pts_latched (i : AudioInfo) (t v : Nat) (hv : v ≠ 0) :
    ∀ (frames : List AudioFrame) (cs : List Nat) (s : Src),
      s.info = some i → s.initial_timestamp = t → s.start_pts = v →
      (∀ f ∈ frames, t < f.timestamp) →
      cs.length = frames.length →
      (createSeq s cs (frames.map PollResult.audio)).fst.map resultPts
        = frames.map (fun f => some ((f.timestamp - t) * 100 + v)) := by
  intro frames
  induction frames with
  | nil =>
    intro cs s _ _ _ _ hlen
    rw [List.length_nil, List.length_eq_zero] at hlen
    subst hlen
    simp [createSeq]
  | cons f fs ih =>
    intro cs s hinfo ht hsv hfresh hlen
    cases cs with
    | nil => simp at hlen
    | cons c cs2 =>
      have hfr : t < f.timestamp := hfresh f (List.mem_cons_self f fs)
      have hloop : createLoop s.loss_threshold s.initial_timestamp 0
          (PollResult.audio f :: fs.map PollResult.audio)
            = LoopOutcome.gotFrame f (fs.map PollResult.audio) := by
        rw [createLoop_audio, if_neg (by omega)]
      have hcreate := create_gotFrame s c _ _ i f hinfo hloop
      rw [List.map_cons, List.map_cons]
      simp only [createSeq]
      rw [hcreate, List.map_cons]
      congr 1
      · show some ((assembleBuffer s c f).fst.pts)
            = some ((f.timestamp - t) * 100 + v)
        have hpts : (assembleBuffer s c f).fst.pts
            = (f.timestamp - t) * 100 + v := by
          show (f.timestamp - s.initial_timestamp) * 100
              + (if s.start_pts = 0 then c else s.start_pts)
            = (f.timestamp - t) * 100 + v
          rw [ht, hsv, if_neg hv]
        rw [hpts]
      · have hstart2 : (assembleBuffer s c f).snd.start_pts = v := by
          show (if s.start_pts = 0 then c else s.start_pts) = v
          rw [hsv, if_neg hv]
        have hlen2 : cs2.length = fs.length := by
          simpa using hlen
        exact ih cs2 (assembleBuffer s c f).snd hinfo ht hstart2
          (fun g hg => hfresh g (List.mem_cons_of_mem _ hg)) hlen2

/-- C4 counterexample: the code latches ndi_struct.start_pts only while the
stored value is 0, and 0 doubles as the "unset" sentinel.  With the pipeline
clock delta equal to 0 at the first buffer (clock just started: get_time() =
base_time) and 7 at the second, frames with strictly increasing device
timestamps 10, 20 over initial_timestamp 5 yield pts 500 and then 1507 — but
the claim's formula with stream_start_pts latched ONCE at the first buffer
(value 0) predicts 1500 for the second buffer.  The claimed single latch does
not hold: the second call re-latched a different origin. -/
theorem C4_counterexample :
    (createSeq negotiatedSrc [0, 7]
        [PollResult.audio frameA, PollResult.audio frameB]).fst.map resultPts
      = [some 500, some 1507] ∧
    (1507 : Nat)
      ≠ (frameB.timestamp - negotiatedSrc.initial_timestamp) * 100 + 0 := by
  decide

/-- C4 amended: for frames with strictly increasing device timestamps, all
above the initial_timestamp snapshot, and PROVIDED the pipeline clock delta at
the first produced buffer is non-zero (so the 0 sentinel really is left
behind), stream_start_pts is latched exactly once, every emitted pts equals
(frame.timestamp - initial_timestamp) * 100 + stream_start_pts, and the
emitted pts sequence is strictly increasing. -/
theorem C4_amended_pts_formula (f0 : AudioFrame) (fs : List AudioFrame)
    (c1 : Nat) (cs : List Nat) (s : Src) (i : AudioInfo)
    (hinfo : s.info = some i) (hstart : s.start_pts = 0) (hc1 : c1 ≠ 0)
    (hfresh : ∀ f ∈ f0 :: fs, s.initial_timestamp < f.timestamp)
    (hchain : List.Chain' (fun a b => a.timestamp < b.timestamp) (f0 :: fs))
    (hlen : cs.length = fs.length) :
    (createSeq s (c1 :: cs) ((f0 :: fs).map PollResult.audio)).fst.map resultPts
      = (f0 :: fs).map
          (fun f => some ((f.timestamp - s.initial_timestamp) * 100 + c1)) ∧
    List.Chain' (fun a b : Nat => a < b)
      ((f0 :: fs).map
        (fun f => (f.timestamp - s.initial_timestamp) * 100 + c1)) := by
  constructor
  · have hfr : s.initial_timestamp < f0.timestamp :=
      hfresh f0 (List.mem_cons_self f0 fs)
    have hloop : createLoop s.loss_threshold s.initial_timestamp 0
        (PollResult.audio f0 :: fs.map PollResult.audio)
          = LoopOutcome.gotFrame f0 (fs.map PollResult.audio) := by
      rw [createLoop_audio, if_neg (by omega)]
    have hcreate := create_gotFrame s c1 _ _ i f0 hinfo hloop
    rw [List.map_cons, List.map_cons]
    simp only [createSeq]
    rw [hcreate, List.map_cons]
    congr 1
    · show some ((assembleBuffer s c1 f0).fst.pts)
          = some ((f0.timestamp - s.initial_timestamp) * 100 + c1)
      have hpts : (assembleBuffer s c1 f0).fst.pts
          = (f0.timestamp - s.initial_timestamp) * 100 + c1 := by
        show (f0.timestamp - s.initial_timestamp) * 100
            + (if s.start_pts = 0 then c1 else s.start_pts) = _
        rw [hstart, if_pos rfl]
      rw [hpts]
    · have hstart2 : (assembleBuffer s c1 f0).snd.start_pts = c1 := by
        show (if s.start_pts = 0 then c1 else s.start_pts) = c1
        rw [hstart, if_pos rfl]
      exact seq_pts_latched i s.initial_timestamp c1 hc1 fs cs
        (assembleBuffer s c1 f0).snd hinfo rfl hstart2
        (fun g hg => hfresh g (List.mem_cons_of_mem _ hg)) hlen
  · exact chain_pts s.initial_timestamp c1 (f0 :: fs) hfresh hchain

/-- C4 witness: two fresh frames with timestamps 10 and 20 over initial 5,
first clock delta 7 (non-zero): pts are 507 and 1507, matching the formula
and strictly increasing. -/
theorem C4_amended_pts_formula_witness :
    (createSeq negotiatedSrc [7, 3]
        ((frameA :: [frameB]).map PollResult.audio)).fst.map resultPts
      = (frameA :: [frameB]).map
          (fun f => some
            ((f.timestamp - negotiatedSrc.initial_timestamp) * 100 + 7)) ∧
    List.Chain' (fun a b : Nat => a < b)
      ((frameA :: [frameB]).map
        (fun f => (f.timestamp - negotiatedSrc.initial_timestamp) * 100 + 7)) :=
  C4_amended_pts_formula frameA [frameB] 7 [3] negotiatedSrc infoS16 rfl rfl
    (by decide) (by decide)
    (List.chain'_cons.mpr ⟨by decide, List.chain'_singleton _⟩) rfl

lemma create_cases (s : Src) (c : Nat) (polls : List PollResult) :
    (bufferOf (create s c polls).fst = none ∧ (create s c polls).snd.fst = s) ∨
    (∃ f, bufferOf (create s c polls).fst = some (assembleBuffer s c f).fst ∧
      (create s c polls).snd.fst = (assembleBuffer s c f).snd) := by
  unfold create
  split
  · exact Or.inl ⟨rfl, rfl⟩
  · split
    · exact Or.inl ⟨rfl, rfl⟩
    · exact Or.inl ⟨rfl, rfl⟩
    · exact Or.inl ⟨rfl, rfl⟩
    · next f r heq => exact Or.inr ⟨f, rfl, rfl⟩

lemma seq_offsets :
    ∀ (cs : List Nat) (s : Src) (polls : List PollResult),
      List.Chain' (fun a b => a.offset_end = b.offset)
        (buffersOf (createSeq s cs polls).fst) ∧
      (∀ b bs, buffersOf (createSeq s cs polls).fst = b :: bs →
        b.offset = s.offset) := by
  intro cs
  induction cs with
  | nil => intro s polls; simp [createSeq, buffersOf]
  | cons c cs ih =>
    intro s polls
    rcases create_cases s c polls with ⟨hb, hs⟩ | ⟨f, hb, hs⟩
    · have hrw : buffersOf ((createSeq s (c :: cs) polls).fst)
          = buffersOf ((createSeq (create s c polls).snd.fst cs
              (create s c polls).snd.snd).fst) := by
        simp only [createSeq, buffersOf, List.filterMap_cons, hb]
      rw [hrw, hs]
      exact ih s (create s c polls).snd.snd
    · have hrw : buffersOf ((createSeq s (c :: cs) polls).fst)
          = (assembleBuffer s c f).fst
            :: buffersOf ((createSeq (create s c polls).snd.fst cs
                (create s c polls).snd.snd).fst) := by
        simp only [createSeq, buffersOf, List.filterMap_cons, hb]
      rw [hrw, hs]
      obtain ⟨ihchain, ihhead⟩ :=
        ih (assembleBuffer s c f).snd (create s c polls).snd.snd
      constructor
      · cases hbs : buffersOf ((createSeq (assembleBuffer s c f).snd cs
            (create s c polls).snd.snd).fst) with
        | nil => exact List.chain'_singleton _
        | cons y ys =>
          rw [List.chain'_cons]
          constructor
          · have hy : y.offset = (assembleBuffer s c f).snd.offset :=
              ihhead y ys hbs
            rw [hy]
            rfl
          · rw [← hbs]; exact ihchain
      · intro b bs hb2
        injection hb2 with h1 h2
        rw [← h1]
        rfl

/-- C8: across any run of create calls, the filled buffers are offset-
contiguous: buffer n's offset_end equals buffer n+1's offset.  Each buffer is
stamped offset = timestamp_data.offset, offset_end = offset + no_samples (u64
addition, hence the % 2 ^ 64), and the cursor advances to exactly that
offset_end, while every non-buffer outcome leaves the cursor untouched. -/
theorem C8_offsets_contiguous :
    (∀ (s : Src) (cs : List Nat) (polls : List PollResult),
      List.Chain' (fun a b => a.offset_end = b.offset)
        (buffersOf (createSeq s cs polls).fst)) ∧
    (∀ (s : Src) (c : Nat) (f : AudioFrame),
      (assembleBuffer s c f).fst.offset = s.offset ∧
      (assembleBuffer s c f).fst.offset_end
        = (s.offset + f.no_samples) % 2 ^ 64 ∧
      (assembleBuffer s c f).snd.offset
        = (assembleBuffer s c f).fst.offset_end) :=
  ⟨fun s cs polls => (seq_offsets cs s polls).1,
   fun _ _ _ => ⟨rfl, rfl, rfl⟩⟩

end NdiAudio
